import Mathlib

/-!
Shallow embedding of the Hull-White one-factor interest-rate subsystem of the
repository (src/repositories/risk-interest-rate/src/models/hull_white_one_factor/:
formulas.py, pricing.py, model.py, data_structures.py).

Conventions of the embedding:
* Python floats are idealised as real numbers; numpy scalar ufuncs (exp, log,
  sqrt) become the corresponding real functions.
* scipy.stats.norm.cdf becomes the standard normal CDF written as an integral.
* scipy.optimize.brentq is modelled by its documented contract: it raises
  ValueError when the bracket endpoints have the same nonzero sign, and
  otherwise converges to a root of the function inside the bracket.
* Python functions that can raise return Except PyExc.
* numpy.arange(start, stop, step) for positive step enumerates
  start + k*step for k below the ceiling of (stop - start)/step.
-/

open Real MeasureTheory
open scoped Classical

noncomputable section

namespace HW1F

/-- Data container for the results of a successful calibration
(data_structures.py, class CalibratedHW1FModel).  The two callable fields
become real-valued functions. -/
structure CalibratedHW1FModel where
  a : ℝ
  sigma : ℝ
  theta_function : ℝ → ℝ
  calibration_error : ℝ
  initial_zero_coupon_bond_pricer : ℝ → ℝ

/-- Finite-difference step used throughout formulas.py: eps = 1e-5. -/
def eps : ℝ := 1e-5

/-- formulas.B: the B(t,T) term of the HW1F model. -/
def B (t T a : ℝ) : ℝ :=
  if a = 0 then T - t
  else (1 / a) * (1 - Real.exp (-a * (T - t)))

/-- formulas.instantaneous_forward_rate: forward difference below eps,
central difference otherwise. -/
def instantaneous_forward_rate (t_val : ℝ) (p0_pricer : ℝ → ℝ) : ℝ :=
  if t_val < eps then
    -(Real.log (p0_pricer (t_val + eps)) - Real.log (p0_pricer t_val)) / eps
  else
    -(Real.log (p0_pricer (t_val + eps)) - Real.log (p0_pricer (t_val - eps)))
      / (2 * eps)

/-- formulas.A, translated statement by statement.  Note that the source
multiplies the subtracted part of the exponent by B_t_T (first power). -/
def A (t T : ℝ) (calibrated_model : CalibratedHW1FModel) : ℝ :=
  let a := calibrated_model.a
  let sigma := calibrated_model.sigma
  let P0T := calibrated_model.initial_zero_coupon_bond_pricer T
  let P0t := calibrated_model.initial_zero_coupon_bond_pricer t
  let f0t := instantaneous_forward_rate t calibrated_model.initial_zero_coupon_bond_pricer
  let B_t_T := B t T a
  let term := B_t_T * f0t - (sigma ^ 2 / (4 * a)) * (1 - Real.exp (-2 * a * t)) * B_t_T
  (P0T / P0t) * Real.exp term

/-- Modelled from the spec: the A(t,T) formula exactly as section 4.3 of the
specification states it, with the subtracted part of the exponent carrying
the factor B(t,T) squared.  Kept alongside the source translation A for
comparison. -/
def A_spec (t T : ℝ) (calibrated_model : CalibratedHW1FModel) : ℝ :=
  let a := calibrated_model.a
  let sigma := calibrated_model.sigma
  let P0T := calibrated_model.initial_zero_coupon_bond_pricer T
  let P0t := calibrated_model.initial_zero_coupon_bond_pricer t
  let f0t := instantaneous_forward_rate t calibrated_model.initial_zero_coupon_bond_pricer
  let B_t_T := B t T a
  let term := B_t_T * f0t - (sigma ^ 2 / (4 * a)) * (1 - Real.exp (-2 * a * t)) * B_t_T ^ 2
  (P0T / P0t) * Real.exp term

/-- The closure derivative_of_instantaneous_forward_rate inside
formulas.generate_theta_function. -/
def derivative_of_instantaneous_forward_rate
    (initial_zero_coupon_bond_pricer : ℝ → ℝ) (t_val : ℝ) : ℝ :=
  (instantaneous_forward_rate (t_val + eps) initial_zero_coupon_bond_pricer
    - instantaneous_forward_rate (t_val - eps) initial_zero_coupon_bond_pricer)
    / (2 * eps)

/-- formulas.generate_theta_function: returns the closure theta. -/
def generate_theta_function (a sigma : ℝ)
    (initial_zero_coupon_bond_pricer : ℝ → ℝ) : ℝ → ℝ :=
  fun t =>
    let f_0_t := instantaneous_forward_rate t initial_zero_coupon_bond_pricer
    let df_0_t := derivative_of_instantaneous_forward_rate initial_zero_coupon_bond_pricer t
    df_0_t + a * f_0_t + (sigma ^ 2 / (2 * a)) * (1 - Real.exp (-2 * a * t))

/-- Python exception values appearing in this subsystem.  RuntimeError and
ValueError are the classes the source raises; CalibrationError is the error
type named by the specification's taxonomy (no such class exists anywhere in
the source tree), kept as a distinct tag for comparison. -/
inductive PyExcType
  | runtimeError
  | valueError
  | calibrationError
deriving DecidableEq

/-- A raised Python exception: its class and its message. -/
structure PyExc where
  etype : PyExcType
  msg : String
deriving DecidableEq

/-- pricing.price_zcb: P(t,T) = A(t,T) * exp(-B(t,T) * r_t). -/
def price_zcb (t T r_t : ℝ) (calibrated_model : CalibratedHW1FModel) : ℝ :=
  A t T calibrated_model * Real.exp (-(B t T calibrated_model.a) * r_t)

/-- scipy.stats.norm.cdf: the standard normal cumulative distribution
function. -/
def normCdf (x : ℝ) : ℝ :=
  ∫ u in Set.Iic x, Real.exp (-(u ^ 2) / 2) / Real.sqrt (2 * Real.pi)

/-- The value computed by the call branch of
pricing.price_european_option_on_zcb. -/
def zcb_call_price (K T S : ℝ) (m : CalibratedHW1FModel) : ℝ :=
  let a := m.a
  let sigma := m.sigma
  let P0S := m.initial_zero_coupon_bond_pricer S
  let P0T := m.initial_zero_coupon_bond_pricer T
  let sigma_p := sigma * Real.sqrt ((1 - Real.exp (-2 * a * T)) / (2 * a)) * B T S a
  let h := (Real.log (P0S / (P0T * K)) + 1 / 2 * sigma_p ^ 2) / sigma_p
  P0S * normCdf h - K * P0T * normCdf (h - sigma_p)

/-- The value computed by the put branch of
pricing.price_european_option_on_zcb. -/
def zcb_put_price (K T S : ℝ) (m : CalibratedHW1FModel) : ℝ :=
  let a := m.a
  let sigma := m.sigma
  let P0S := m.initial_zero_coupon_bond_pricer S
  let P0T := m.initial_zero_coupon_bond_pricer T
  let sigma_p := sigma * Real.sqrt ((1 - Real.exp (-2 * a * T)) / (2 * a)) * B T S a
  let h := (Real.log (P0S / (P0T * K)) + 1 / 2 * sigma_p ^ 2) / sigma_p
  K * P0T * normCdf (sigma_p - h) - P0S * normCdf (-h)

/-- pricing.price_european_option_on_zcb: dispatches on option_type, raising
ValueError for anything besides call and put. -/
def price_european_option_on_zcb (K T S : ℝ) (calibrated_model : CalibratedHW1FModel)
    (option_type : String) : Except PyExc ℝ :=
  if option_type = "call" then .ok (zcb_call_price K T S calibrated_model)
  else if option_type = "put" then .ok (zcb_put_price K T S calibrated_model)
  else .error ⟨.valueError, "option_type must be 'call' or 'put'"⟩

/-- numpy.arange(start, stop, step) for positive step: the values
start + k*step lying in the half-open interval from start to stop. -/
def arange (start stop step : ℝ) : List ℝ :=
  (List.range (Int.toNat ⌈(stop - start) / step⌉)).map fun k => start + k * step

/-- The fixed-leg payment dates enumerated by pricing.price_european_swaption:
np.arange(tenor_start, tenor_end + fixed_frequency, fixed_frequency). -/
def fixed_payment_dates (tenor_start tenor_end fixed_frequency : ℝ) : List ℝ :=
  arange tenor_start (tenor_end + fixed_frequency) fixed_frequency

/-- The payment dates retained by the filter fixed_payment_dates > expiry. -/
def filtered_payment_dates (tenor_start tenor_end fixed_frequency expiry : ℝ) : List ℝ :=
  (fixed_payment_dates tenor_start tenor_end fixed_frequency).filter
    fun d => decide (expiry < d)

/-- The local objective swap_pv_at_expiry inside
pricing.price_european_swaption: PV of the fixed leg minus PV of the floating
leg at expiry, as a function of the candidate critical rate. -/
def swap_pv_at_expiry (swap_rate expiry tenor_start tenor_end fixed_frequency : ℝ)
    (calibrated_model : CalibratedHW1FModel) (r_star : ℝ) : ℝ :=
  ((filtered_payment_dates tenor_start tenor_end fixed_frequency expiry).map
      fun t_i => fixed_frequency * swap_rate * price_zcb expiry t_i r_star calibrated_model).sum
    - (price_zcb expiry tenor_start r_star calibrated_model
        - price_zcb expiry tenor_end r_star calibrated_model)

/-- scipy.optimize.brentq on a bracket, by its documented contract: it raises
ValueError (modelled as none) when f(lo) and f(hi) have the same nonzero
sign, and otherwise converges to a root of f inside the bracket. -/
def brentq (f : ℝ → ℝ) (lo hi : ℝ) : Option ℝ :=
  if 0 < f lo * f hi then none
  else some (Classical.epsilon fun r => lo ≤ r ∧ r ≤ hi ∧ f r = 0)

/-- pricing.price_european_swaption: Jamshidian decomposition.  Filters the
fixed-leg dates, returns 0.0 when none lie strictly after expiry, returns 0.0
when brentq raises ValueError, and otherwise sums the prices of the ZCB
options (calls for payer, puts for receiver), raising ValueError for any
other option_type. -/
def price_european_swaption (swap_rate expiry tenor_start tenor_end fixed_frequency : ℝ)
    (calibrated_model : CalibratedHW1FModel) (option_type : String) : Except PyExc ℝ :=
  let dates := filtered_payment_dates tenor_start tenor_end fixed_frequency expiry
  if dates = [] then .ok 0
  else
    match brentq
        (swap_pv_at_expiry swap_rate expiry tenor_start tenor_end fixed_frequency
          calibrated_model) (-(1 / 2)) (1 / 2) with
    | none => .ok 0
    | some r_star =>
        if option_type = "payer" then
          .ok ((dates.map fun t_i =>
            fixed_frequency * swap_rate *
              zcb_call_price (price_zcb expiry t_i r_star calibrated_model)
                expiry t_i calibrated_model).sum)
        else if option_type = "receiver" then
          .ok ((dates.map fun t_i =>
            fixed_frequency * swap_rate *
              zcb_put_price (price_zcb expiry t_i r_star calibrated_model)
                expiry t_i calibrated_model).sum)
        else .error ⟨.valueError, "option_type must be 'payer' or 'receiver'"⟩

/-- Python int() truncation toward zero, applied to a real value. -/
def pyInt (x : ℝ) : ℤ := if 0 ≤ x then ⌊x⌋ else ⌈x⌉

/-- num_timesteps = int(time_horizon / dt) + 1 in
model.HullWhiteOneFactor._simulate_logic. -/
def num_timesteps (time_horizon dt : ℝ) : ℕ := (pyInt (time_horizon / dt)).toNat + 1

/-- np.linspace(0, time_horizon, n): the i-th grid point. -/
def time_grid (time_horizon : ℝ) (n : ℕ) (i : ℕ) : ℝ :=
  if n ≤ 1 then 0 else time_horizon * i / ((n : ℝ) - 1)

/-- The initial short rate of _simulate_logic: r0 = f(0, epsilon) with
epsilon = 1e-5, computed from the initial curve. -/
def r0_of (m : CalibratedHW1FModel) : ℝ :=
  instantaneous_forward_rate 1e-5 m.initial_zero_coupon_bond_pricer

/-- The path array filled by the Euler loop of _simulate_logic: row 0 is
seeded with r0, and row i+1 is row i plus drift (theta(t_i) - a*r_i)*dt plus
sigma*sqrt(dt)*dW_i. -/
def sim_paths (m : CalibratedHW1FModel) (time_horizon dt : ℝ)
    (shocks : ℕ → ℕ → ℝ) : ℕ → ℕ → ℝ
  | 0, _ => r0_of m
  | i + 1, j =>
      sim_paths m time_horizon dt shocks i j
        + (m.theta_function (time_grid time_horizon (num_timesteps time_horizon dt) i)
            - m.a * sim_paths m time_horizon dt shocks i j) * dt
        + m.sigma * Real.sqrt dt * shocks i j

/-- Data container for the results of a simulation (data_structures.py,
class HW1FSimulationResult); the numpy array shapes (num_timesteps,
num_paths) become the index types of the fields. -/
structure HW1FSimulationResult where
  num_timesteps : ℕ
  num_paths : ℕ
  paths : Fin num_timesteps → Fin num_paths → ℝ
  time_grid : Fin num_timesteps → ℝ

/-- model.HullWhiteOneFactor._simulate_logic. -/
def simulate_logic (calibrated_model : CalibratedHW1FModel) (num_paths : ℕ)
    (time_horizon dt : ℝ) (correlated_shocks : ℕ → ℕ → ℝ) : HW1FSimulationResult where
  num_timesteps := num_timesteps time_horizon dt
  num_paths := num_paths
  paths := fun i j => sim_paths calibrated_model time_horizon dt correlated_shocks i j
  time_grid := fun i => time_grid time_horizon (num_timesteps time_horizon dt) i

/-- The fields of the scipy.optimize.OptimizeResult object that
_calibrate_logic reads.  The source attribute result.fun is called fun_val
here because fun is a reserved word. -/
structure OptimizeResult where
  success : Bool
  message : String
  x : ℝ × ℝ
  fun_val : ℝ

/-- The tail of model.HullWhiteOneFactor._calibrate_logic after
scipy.optimize.minimize returns: if not result.success, raise
RuntimeError("Calibration failed: " + result.message); otherwise rebuild the
theta function at the fitted parameters and return the CalibratedHW1FModel. -/
def calibrate_from_result (initial_zero_coupon_bond_pricer : ℝ → ℝ)
    (result : OptimizeResult) : Except PyExc CalibratedHW1FModel :=
  if result.success = false then
    .error ⟨.runtimeError, "Calibration failed: " ++ result.message⟩
  else
    .ok { a := result.x.1
          sigma := result.x.2
          theta_function := generate_theta_function result.x.1 result.x.2
            initial_zero_coupon_bond_pricer
          calibration_error := result.fun_val
          initial_zero_coupon_bond_pricer := initial_zero_coupon_bond_pricer }

/-- The maturities at which one call of instantaneous_forward_rate(t_val, p)
evaluates the pricer p, read off the two branches of the source. -/
def ifr_pricer_evals (t_val : ℝ) : List ℝ :=
  if t_val < eps then [t_val + eps, t_val] else [t_val + eps, t_val - eps]

/-- The maturities at which derivative_of_instantaneous_forward_rate(t)
evaluates the pricer: it calls instantaneous_forward_rate at t+eps and at
t-eps. -/
def deriv_ifr_pricer_evals (t : ℝ) : List ℝ :=
  ifr_pricer_evals (t + eps) ++ ifr_pricer_evals (t - eps)

/-- The maturities at which one call of theta(t) (the closure returned by
generate_theta_function) evaluates the pricer: those of f(0,t) plus those of
the derivative closure. -/
def theta_pricer_evals (t : ℝ) : List ℝ :=
  ifr_pricer_evals t ++ deriv_ifr_pricer_evals t

/-! Concrete instances used by witnesses and counterexamples. -/

/-- The constant pricer mapping every maturity to price 1 (a flat curve with
zero rates), used as a concrete InitialCurvePricer in witnesses. -/
def constOnePricer : ℝ → ℝ := fun _ => 1

/-- A concrete calibrated model over the flat curve: a = 1, sigma = 1, with
the theta function genuinely generated from those parameters and the flat
pricer. -/
def flatOneModel : CalibratedHW1FModel where
  a := 1
  sigma := 1
  theta_function := generate_theta_function 1 1 constOnePricer
  calibration_error := 0
  initial_zero_coupon_bond_pricer := constOnePricer

/-- All-minus-one shocks, used by the Euler step witness. -/
def negOneShocks : ℕ → ℕ → ℝ := fun _ _ => -1

/-- A concrete failed optimizer outcome (the message is a characteristic
L-BFGS-B diagnostic). -/
def failedOptResult : OptimizeResult where
  success := false
  message := "ABNORMAL_TERMINATION_IN_LNSRCH"
  x := (1 / 10, 1 / 100)
  fun_val := 0

/-! Supporting lemmas. -/

lemma eps_pos : 0 < eps := by norm_num [eps]

lemma ifr_const_one (t : ℝ) : instantaneous_forward_rate t constOnePricer = 0 := by
  unfold instantaneous_forward_rate constOnePricer
  split <;> simp

/-- A call of instantaneous_forward_rate only reads the pricer at the
maturities listed by ifr_pricer_evals (justifying the instrumentation). -/
lemma instantaneous_forward_rate_congr (t : ℝ) (p q : ℝ → ℝ)
    (h : ∀ x ∈ ifr_pricer_evals t, p x = q x) :
    instantaneous_forward_rate t p = instantaneous_forward_rate t q := by
  by_cases hc : t < eps
  · have h1 := h (t + eps) (by simp [ifr_pricer_evals, if_pos hc])
    have h2 := h t (by simp [ifr_pricer_evals, if_pos hc])
    simp [instantaneous_forward_rate, if_pos hc, h1, h2]
  · have h1 := h (t + eps) (by simp [ifr_pricer_evals, if_neg hc])
    have h2 := h (t - eps) (by simp [ifr_pricer_evals, if_neg hc])
    simp [instantaneous_forward_rate, if_neg hc, h1, h2]

/-- A call of theta(t) only reads the pricer at the maturities listed by
theta_pricer_evals (justifying the instrumentation). -/
lemma generate_theta_function_congr (a sigma t : ℝ) (p q : ℝ → ℝ)
    (h : ∀ x ∈ theta_pricer_evals t, p x = q x) :
    generate_theta_function a sigma p t = generate_theta_function a sigma q t := by
  have hsub1 : ∀ x ∈ ifr_pricer_evals t, p x = q x := fun x hx =>
    h x (by simp [theta_pricer_evals, hx])
  have hsub2 : ∀ x ∈ ifr_pricer_evals (t + eps), p x = q x := fun x hx =>
    h x (by simp [theta_pricer_evals, deriv_ifr_pricer_evals, hx])
  have hsub3 : ∀ x ∈ ifr_pricer_evals (t - eps), p x = q x := fun x hx =>
    h x (by simp [theta_pricer_evals, deriv_ifr_pricer_evals, hx])
  simp [generate_theta_function, derivative_of_instantaneous_forward_rate,
    instantaneous_forward_rate_congr t p q hsub1,
    instantaneous_forward_rate_congr (t + eps) p q hsub2,
    instantaneous_forward_rate_congr (t - eps) p q hsub3]

lemma B_one_one_one : B 1 1 1 = 0 := by norm_num [B]

lemma B_one_two_one : B 1 2 1 = 1 - Real.exp (-1) := by norm_num [B]

lemma A_flat_one_one : A 1 1 flatOneModel = 1 := by
  simp [A, flatOneModel, ifr_const_one, B_one_one_one, constOnePricer]

lemma A_flat_one_two :
    A 1 2 flatOneModel
      = Real.exp (-(1 / 4 * (1 - Real.exp (-2)) * (1 - Real.exp (-1)))) := by
  simp only [A, flatOneModel, ifr_const_one, B_one_two_one, constOnePricer]
  norm_num

lemma flatOneModel_a : flatOneModel.a = 1 := rfl

lemma price_zcb_flat_one_one (r : ℝ) : price_zcb 1 1 r flatOneModel = 1 := by
  simp [price_zcb, A_flat_one_one, flatOneModel_a, B_one_one_one]

lemma price_zcb_flat_one_two (r : ℝ) :
    price_zcb 1 2 r flatOneModel
      = Real.exp (-(1 / 4 * (1 - Real.exp (-2)) * (1 - Real.exp (-1)))
          + -((1 - Real.exp (-1)) * r)) := by
  simp only [price_zcb, A_flat_one_two, flatOneModel_a, B_one_two_one, ← Real.exp_add]
  ring_nf

/-! Claim theorems. -/

/-- C8: for every t, T and a, the B term satisfies the boundary identities:
B(t, T, 0) = T - t (so B(0, 1, 0) = 1), and B(T, T, a) = 0 whenever a > 0. -/
theorem B_boundary (t T a : ℝ) :
    B t T 0 = T - t ∧ B 0 1 0 = 1 ∧ (0 < a → B T T a = 0) := by
  refine ⟨by simp [B], by norm_num [B], fun ha => ?_⟩
  simp [B, ne_of_gt ha]

/-- Witness for C8 at t = 0, T = 1, a = 1. -/
theorem B_boundary_witness : (0 : ℝ) < 1 ∧ B 1 1 1 = 0 :=
  ⟨by norm_num, (B_boundary 0 1 1).2.2 (by norm_num)⟩

/-- C7: for t <= T, a calibrated model with a > 0 and sigma > 0 whose pricer
is positive at the evaluated maturities, price_zcb(t, T, r_t, model) is
strictly positive for every real short rate r_t. -/
theorem price_zcb_pos (t T r_t : ℝ) (m : CalibratedHW1FModel)
    (htT : t ≤ T) (ha : 0 < m.a) (hs : 0 < m.sigma)
    (hT : 0 < m.initial_zero_coupon_bond_pricer T)
    (ht : 0 < m.initial_zero_coupon_bond_pricer t)
    (htpe : 0 < m.initial_zero_coupon_bond_pricer (t + eps))
    (htme : 0 < m.initial_zero_coupon_bond_pricer (t - eps)) :
    0 < price_zcb t T r_t m := by
  have hA : 0 < A t T m := by
    simp only [A]
    exact mul_pos (div_pos hT ht) (Real.exp_pos _)
  exact mul_pos hA (Real.exp_pos _)

/-- Witness for C7 at t = 0, T = 1, r_t = 5 on the flat unit-price model. -/
theorem price_zcb_pos_witness :
    ((0 : ℝ) ≤ 1 ∧ 0 < flatOneModel.a ∧ 0 < flatOneModel.sigma
      ∧ 0 < flatOneModel.initial_zero_coupon_bond_pricer 1)
    ∧ 0 < price_zcb 0 1 5 flatOneModel :=
  ⟨⟨by norm_num, by norm_num [flatOneModel], by norm_num [flatOneModel],
      by norm_num [flatOneModel, constOnePricer]⟩,
    price_zcb_pos 0 1 5 flatOneModel (by norm_num)
      (by norm_num [flatOneModel]) (by norm_num [flatOneModel])
      (by norm_num [flatOneModel, constOnePricer])
      (by norm_num [flatOneModel, constOnePricer])
      (by norm_num [flatOneModel, constOnePricer])
      (by norm_num [flatOneModel, constOnePricer])⟩

/-- C5: for num_paths >= 1, time_horizon > 0, dt > 0 and any shocks, the
simulation has num_timesteps = floor(time_horizon/dt) + 1 rows and num_paths
columns, every entry of row 0 equals r0 = instantaneous_forward_rate(1e-5,
pricer), and row 0 does not depend on the shocks. -/
theorem simulate_shape_and_seed (m : CalibratedHW1FModel) (n : ℕ)
    (time_horizon dt : ℝ) (shocks shocks' : ℕ → ℕ → ℝ)
    (hn : 1 ≤ n) (hth : 0 < time_horizon) (hdt : 0 < dt) :
    ((simulate_logic m n time_horizon dt shocks).num_timesteps : ℤ)
        = ⌊time_horizon / dt⌋ + 1
      ∧ (simulate_logic m n time_horizon dt shocks).num_paths = n
      ∧ (∀ (h0 : 0 < (simulate_logic m n time_horizon dt shocks).num_timesteps)
          (j : Fin n),
          (simulate_logic m n time_horizon dt shocks).paths ⟨0, h0⟩ j
            = instantaneous_forward_rate 1e-5 m.initial_zero_coupon_bond_pricer)
      ∧ (∀ (h0 : 0 < (simulate_logic m n time_horizon dt shocks).num_timesteps)
          (j : Fin n),
          (simulate_logic m n time_horizon dt shocks).paths ⟨0, h0⟩ j
            = (simulate_logic m n time_horizon dt shocks').paths ⟨0, h0⟩ j) := by
  have hq : 0 ≤ time_horizon / dt := le_of_lt (div_pos hth hdt)
  refine ⟨?_, rfl, fun h0 j => rfl, fun h0 j => rfl⟩
  simp only [simulate_logic, num_timesteps, pyInt, if_pos hq]
  push_cast [Int.toNat_of_nonneg (Int.floor_nonneg.mpr hq)]
  ring

/-- Witness for C5 with the flat model, 2 paths, horizon 1, dt = 1/2 and
all-zero versus all-one shocks. -/
theorem simulate_shape_and_seed_witness :
    ((1 : ℕ) ≤ 2 ∧ (0 : ℝ) < 1 ∧ (0 : ℝ) < 1 / 2)
    ∧ ((simulate_logic flatOneModel 2 1 (1 / 2) (fun _ _ => 0)).num_timesteps : ℤ)
        = ⌊(1 : ℝ) / (1 / 2)⌋ + 1
    ∧ (∀ (h0 : 0 < (simulate_logic flatOneModel 2 1 (1 / 2) (fun _ _ => 0)).num_timesteps)
        (j : Fin 2),
        (simulate_logic flatOneModel 2 1 (1 / 2) (fun _ _ => 0)).paths ⟨0, h0⟩ j
          = instantaneous_forward_rate 1e-5 flatOneModel.initial_zero_coupon_bond_pricer) :=
  ⟨⟨by norm_num, by norm_num, by norm_num⟩,
    (simulate_shape_and_seed flatOneModel 2 1 (1 / 2) (fun _ _ => 0) (fun _ _ => 1)
        (by norm_num) (by norm_num) (by norm_num)).1,
    (simulate_shape_and_seed flatOneModel 2 1 (1 / 2) (fun _ _ => 0) (fun _ _ => 1)
        (by norm_num) (by norm_num) (by norm_num)).2.2.1⟩

lemma num_timesteps_one_half : num_timesteps 1 (1 / 2) = 3 := by
  norm_num [num_timesteps, pyInt]
  rfl

lemma r0_flat : r0_of flatOneModel = 0 := ifr_const_one _

lemma theta_flat (t : ℝ) :
    generate_theta_function 1 1 constOnePricer t = 1 / 2 * (1 - Real.exp (-2 * t)) := by
  simp [generate_theta_function, derivative_of_instantaneous_forward_rate, ifr_const_one]

lemma simNeg1_nt :
    (simulate_logic flatOneModel 1 1 (1 / 2) negOneShocks).num_timesteps = 3 :=
  num_timesteps_one_half

lemma simNeg1_np :
    (simulate_logic flatOneModel 1 1 (1 / 2) negOneShocks).num_paths = 1 := rfl

/-- C6: the Euler-Maruyama update: for every step i in the loop range and
every path j, paths[i+1, j] = paths[i, j] + (theta(time_grid[i]) -
a*paths[i, j])*dt + sigma*sqrt(dt)*shocks[i, j].  No clamping or absorbing
boundary is applied: the equation holds for every real value of
paths[i, j], negative values included. -/
theorem euler_step (m : CalibratedHW1FModel) (n : ℕ) (time_horizon dt : ℝ)
    (shocks : ℕ → ℕ → ℝ) (i j : ℕ)
    (hi : i + 1 < num_timesteps time_horizon dt) (hj : j < n) :
    (simulate_logic m n time_horizon dt shocks).paths ⟨i + 1, hi⟩ ⟨j, hj⟩
      = (simulate_logic m n time_horizon dt shocks).paths ⟨i, Nat.lt_of_succ_lt hi⟩ ⟨j, hj⟩
        + (m.theta_function ((simulate_logic m n time_horizon dt shocks).time_grid
              ⟨i, Nat.lt_of_succ_lt hi⟩)
            - m.a * (simulate_logic m n time_horizon dt shocks).paths
                ⟨i, Nat.lt_of_succ_lt hi⟩ ⟨j, hj⟩) * dt
        + m.sigma * Real.sqrt dt * shocks i j := rfl

/-- Witness for C6 on the flat model with all-minus-one shocks at step i = 1:
the hypotheses hold, the step equation is produced by the theorem, and the
short rate entering that step is strictly negative, exhibiting that negative
rates are fed through the update unchanged. -/
theorem euler_step_witness :
    (1 + 1 < num_timesteps 1 (1 / 2) ∧ 0 < 1)
    ∧ (simulate_logic flatOneModel 1 1 (1 / 2) negOneShocks).paths
          ⟨1 + 1, by rw [simNeg1_nt]; norm_num⟩ ⟨0, by rw [simNeg1_np]; norm_num⟩
        = (simulate_logic flatOneModel 1 1 (1 / 2) negOneShocks).paths
            ⟨1, by rw [simNeg1_nt]; norm_num⟩ ⟨0, by rw [simNeg1_np]; norm_num⟩
          + (flatOneModel.theta_function
                ((simulate_logic flatOneModel 1 1 (1 / 2) negOneShocks).time_grid
                  ⟨1, by rw [simNeg1_nt]; norm_num⟩)
              - flatOneModel.a * (simulate_logic flatOneModel 1 1 (1 / 2)
                  negOneShocks).paths
                  ⟨1, by rw [simNeg1_nt]; norm_num⟩
                  ⟨0, by rw [simNeg1_np]; norm_num⟩) * (1 / 2)
          + flatOneModel.sigma * Real.sqrt (1 / 2) * negOneShocks 1 0
    ∧ (simulate_logic flatOneModel 1 1 (1 / 2) negOneShocks).paths
        ⟨1, by rw [simNeg1_nt]; norm_num⟩ ⟨0, by rw [simNeg1_np]; norm_num⟩ < 0 := by
  have hi : 1 + 1 < num_timesteps 1 (1 / 2) := by rw [num_timesteps_one_half]; norm_num
  refine ⟨⟨hi, by norm_num⟩,
    euler_step flatOneModel 1 1 (1 / 2) negOneShocks 1 0 hi (by norm_num), ?_⟩
  have hgrid : time_grid 1 (num_timesteps 1 (1 / 2)) 0 = 0 := by
    rw [num_timesteps_one_half]; norm_num [time_grid]
  show sim_paths flatOneModel 1 (1 / 2) negOneShocks 1 0 < 0
  have hv : sim_paths flatOneModel 1 (1 / 2) negOneShocks 1 0
      = -Real.sqrt (1 / 2) := by
    show sim_paths flatOneModel 1 (1 / 2) negOneShocks 0 0
        + (flatOneModel.theta_function (time_grid 1 (num_timesteps 1 (1 / 2)) 0)
            - flatOneModel.a * sim_paths flatOneModel 1 (1 / 2) negOneShocks 0 0)
            * (1 / 2)
        + flatOneModel.sigma * Real.sqrt (1 / 2) * negOneShocks 1 0
        = -Real.sqrt (1 / 2)
    have h0 : sim_paths flatOneModel 1 (1 / 2) negOneShocks 0 0 = 0 := r0_flat
    rw [h0, hgrid]
    show 0 + (generate_theta_function 1 1 constOnePricer 0 - 1 * 0) * (1 / 2)
        + 1 * Real.sqrt (1 / 2) * negOneShocks 1 0 = -Real.sqrt (1 / 2)
    rw [theta_flat]
    show 0 + (1 / 2 * (1 - Real.exp (-2 * 0)) - 1 * 0) * (1 / 2)
        + 1 * Real.sqrt (1 / 2) * (-1) = -Real.sqrt (1 / 2)
    norm_num
  rw [hv, neg_lt, neg_zero]
  exact Real.sqrt_pos.mpr (by norm_num)

/-- C10: for 0 <= t < eps (with eps = 1e-5), evaluating theta(t) makes the
derivative closure call instantaneous_forward_rate at t - eps, whose
small-argument branch evaluates the pricer at the negative maturity t - eps;
for t >= 2*eps, every pricer evaluation made by theta(t) is at a
non-negative maturity. -/
theorem theta_pricer_eval_domains (t : ℝ) :
    (0 ≤ t → t < eps → (t - eps) ∈ theta_pricer_evals t ∧ t - eps < 0)
    ∧ (2 * eps ≤ t → ∀ x ∈ theta_pricer_evals t, 0 ≤ x) := by
  have he : (0 : ℝ) < eps := eps_pos
  constructor
  · intro h0 hlt
    have h1 : ¬t + eps < eps := by linarith
    have h2 : t - eps < eps := by linarith
    refine ⟨?_, by linarith⟩
    simp [theta_pricer_evals, deriv_ifr_pricer_evals, ifr_pricer_evals,
      if_pos hlt, if_neg h1, if_pos h2]
  · intro h2 x hx
    have h1 : ¬t < eps := by linarith
    have h3 : ¬t + eps < eps := by linarith
    have h4 : ¬t - eps < eps := by linarith
    simp only [theta_pricer_evals, deriv_ifr_pricer_evals, ifr_pricer_evals,
      if_neg h1, if_neg h3, if_neg h4, List.mem_append, List.mem_cons,
      List.mem_singleton, List.not_mem_nil, or_false] at hx
    rcases hx with (h | h) | (h | h) | (h | h) <;> rw [h] <;> linarith

/-- Witness for C10 at t = 0 (negative evaluation point reached) and t = 1
(all evaluation points non-negative, instantiated at the point 1 + eps). -/
theorem theta_pricer_eval_domains_witness :
    ((0 : ℝ) ≤ 0 ∧ (0 : ℝ) < eps
      ∧ ((0 : ℝ) - eps ∈ theta_pricer_evals 0 ∧ (0 : ℝ) - eps < 0))
    ∧ (2 * eps ≤ (1 : ℝ) ∧ (1 : ℝ) + eps ∈ theta_pricer_evals 1
        ∧ 0 ≤ (1 : ℝ) + eps) := by
  have h2 : 2 * eps ≤ (1 : ℝ) := by norm_num [eps]
  have hmem : (1 : ℝ) + eps ∈ theta_pricer_evals 1 := by
    have h1 : ¬(1 : ℝ) < eps := by norm_num [eps]
    have h3 : ¬(1 : ℝ) + eps < eps := by norm_num [eps]
    have h4 : ¬(1 : ℝ) - eps < eps := by norm_num [eps]
    simp [theta_pricer_evals, deriv_ifr_pricer_evals, ifr_pricer_evals,
      if_neg h1, if_neg h3, if_neg h4]
  exact ⟨⟨le_rfl, eps_pos, (theta_pricer_eval_domains 0).1 le_rfl eps_pos⟩,
    h2, hmem, (theta_pricer_eval_domains 1).2 h2 _ hmem⟩

/-- Counterexample to C3 as stated: on a failed optimization the calibration
raises RuntimeError (there is no CalibrationError class anywhere in the
source), so the raised error is not CalibrationError-typed. -/
theorem calibration_error_type_counterexample :
    calibrate_from_result constOnePricer failedOptResult
      = .error ⟨.runtimeError, "Calibration failed: ABNORMAL_TERMINATION_IN_LNSRCH"⟩
    ∧ PyExcType.runtimeError ≠ PyExcType.calibrationError :=
  ⟨rfl, by decide⟩

/-- C3 amended: whenever the optimizer reports failure, calibration raises a
RuntimeError carrying the optimizer's diagnostic message (prefixed with
"Calibration failed: "), which propagates to the caller; no fallback
CalibratedModel is returned. -/
theorem calibration_failure_raises_runtime_error (pricer : ℝ → ℝ)
    (result : OptimizeResult) (hfail : result.success = false) :
    calibrate_from_result pricer result
        = .error ⟨.runtimeError, "Calibration failed: " ++ result.message⟩
      ∧ ∀ cm, calibrate_from_result pricer result ≠ .ok cm := by
  have h : calibrate_from_result pricer result
      = .error ⟨.runtimeError, "Calibration failed: " ++ result.message⟩ := by
    simp [calibrate_from_result, hfail]
  exact ⟨h, fun cm hc => by rw [h] at hc; exact Except.noConfusion hc⟩

/-- Witness for the amended C3 at the concrete failed optimizer result. -/
theorem calibration_failure_witness :
    failedOptResult.success = false
    ∧ calibrate_from_result constOnePricer failedOptResult
        = .error ⟨.runtimeError, "Calibration failed: " ++ failedOptResult.message⟩
    ∧ calibrate_from_result constOnePricer failedOptResult ≠ .ok flatOneModel :=
  ⟨rfl,
    (calibration_failure_raises_runtime_error constOnePricer failedOptResult rfl).1,
    (calibration_failure_raises_runtime_error constOnePricer failedOptResult rfl).2
      flatOneModel⟩

/-! Concrete evaluations of the fixed-leg date enumeration. -/

lemma range_toNat_two : List.range (Int.toNat 2) = [0, 1] := by decide

lemma range_toNat_three : List.range (Int.toNat 3) = [0, 1, 2] := by decide

lemma fixed_dates_one_two_one : fixed_payment_dates 1 2 1 = [1, 2] := by
  have hc : ⌈((2 : ℝ) + 1 - 1) / 1⌉ = 2 := by norm_num
  show (List.range (Int.toNat ⌈((2 : ℝ) + 1 - 1) / 1⌉)).map (fun k => (1 : ℝ) + k * 1)
      = [1, 2]
  rw [hc, range_toNat_two]
  norm_num

lemma fixed_dates_zero_one_one : fixed_payment_dates 0 1 1 = [0, 1] := by
  have hc : ⌈((1 : ℝ) + 1 - 0) / 1⌉ = 2 := by norm_num
  show (List.range (Int.toNat ⌈((1 : ℝ) + 1 - 0) / 1⌉)).map (fun k => (0 : ℝ) + k * 1)
      = [0, 1]
  rw [hc, range_toNat_two]
  norm_num

lemma fixed_dates_zero_one_threefifths :
    fixed_payment_dates 0 1 (3 / 5) = [0, 3 / 5, 6 / 5] := by
  have hc : ⌈((1 : ℝ) + 3 / 5 - 0) / (3 / 5)⌉ = 3 := by
    rw [Int.ceil_eq_iff]
    norm_num
  show (List.range (Int.toNat ⌈((1 : ℝ) + 3 / 5 - 0) / (3 / 5)⌉)).map
      (fun k => (0 : ℝ) + k * (3 / 5)) = [0, 3 / 5, 6 / 5]
  rw [hc, range_toNat_three]
  norm_num

lemma filtered_one_two_one_one : filtered_payment_dates 1 2 1 1 = [2] := by
  rw [filtered_payment_dates, fixed_dates_one_two_one]
  simp only [List.filter_cons, List.filter_nil, decide_eq_true_eq]
  norm_num

lemma filtered_zero_one_threefifths_one :
    filtered_payment_dates 0 1 (3 / 5) 1 = [6 / 5] := by
  rw [filtered_payment_dates, fixed_dates_zero_one_threefifths]
  simp only [List.filter_cons, List.filter_nil, decide_eq_true_eq]
  norm_num

lemma filtered_eq_nil_of_all_le (tenor_start tenor_end fixed_frequency expiry : ℝ)
    (h : ∀ d ∈ fixed_payment_dates tenor_start tenor_end fixed_frequency, d ≤ expiry) :
    filtered_payment_dates tenor_start tenor_end fixed_frequency expiry = [] := by
  rw [filtered_payment_dates, List.filter_eq_nil_iff]
  intro d hd
  simp only [decide_eq_true_eq]
  exact not_lt.mpr (h d hd)

/-! Evaluation of the swaption objective on the flat model. -/

lemma exp_neg_one_lt_one : Real.exp (-1) < 1 :=
  Real.exp_lt_one_iff.mpr (by norm_num)

lemma exp_neg_two_lt_one : Real.exp (-2) < 1 :=
  Real.exp_lt_one_iff.mpr (by norm_num)

lemma swap_pv_flat (r : ℝ) :
    swap_pv_at_expiry 9 1 1 2 1 flatOneModel r
      = 10 * price_zcb 1 2 r flatOneModel - 1 := by
  rw [swap_pv_at_expiry, filtered_one_two_one_one]
  simp [price_zcb_flat_one_one]
  ring

lemma swap_pv_flat_pos (r : ℝ) (hr : r ∈ Set.Icc (-(1 / 2) : ℝ) (1 / 2)) :
    0 < swap_pv_at_expiry 9 1 1 2 1 flatOneModel r := by
  obtain ⟨hr1, hr2⟩ := hr
  rw [swap_pv_flat, price_zcb_flat_one_two]
  have hB0 : 0 < 1 - Real.exp (-1) := by linarith [exp_neg_one_lt_one]
  have hB1 : 1 - Real.exp (-1) ≤ 1 := by linarith [Real.exp_pos (-1 : ℝ)]
  have hc2 : 0 < 1 - Real.exp (-2) := by linarith [exp_neg_two_lt_one]
  have hc2' : 1 - Real.exp (-2) ≤ 1 := by linarith [Real.exp_pos (-2 : ℝ)]
  have hcB : 1 / 4 * (1 - Real.exp (-2)) * (1 - Real.exp (-1)) ≤ 1 / 4 := by
    nlinarith
  have hBr : (1 - Real.exp (-1)) * r ≤ 1 / 2 := by nlinarith
  have hx : -(3 / 4 : ℝ)
      ≤ -(1 / 4 * (1 - Real.exp (-2)) * (1 - Real.exp (-1)))
        + -((1 - Real.exp (-1)) * r) := by linarith
  have hexp := Real.exp_le_exp.mpr hx
  have h10 : Real.exp ((3 : ℝ) / 4) < 10 := by
    calc Real.exp ((3 : ℝ) / 4) ≤ Real.exp 1 := Real.exp_le_exp.mpr (by norm_num)
    _ < 2.7182818286 := Real.exp_one_lt_d9
    _ < 10 := by norm_num
  have hmul : Real.exp ((3 : ℝ) / 4) * Real.exp (-(3 / 4 : ℝ)) = 1 := by
    rw [← Real.exp_add]
    norm_num
  have hlow : (1 : ℝ) / 10 < Real.exp (-(3 / 4 : ℝ)) := by
    nlinarith [Real.exp_pos (-(3 / 4 : ℝ)), Real.exp_pos ((3 : ℝ) / 4)]
  linarith

/-- C4: when at least one fixed-leg date survives the expiry filter but the
swap PV objective has no sign change over the bracket from -1/2 to 1/2 (so
brentq fails to locate the critical rate), the swaption prices to 0.0 rather
than propagating the root-finding failure as an error. -/
theorem swaption_root_failure_returns_zero
    (swap_rate expiry tenor_start tenor_end fixed_frequency : ℝ)
    (m : CalibratedHW1FModel) (option_type : String)
    (hne : filtered_payment_dates tenor_start tenor_end fixed_frequency expiry ≠ [])
    (hsign : (∀ r ∈ Set.Icc (-(1 / 2) : ℝ) (1 / 2),
          0 < swap_pv_at_expiry swap_rate expiry tenor_start tenor_end fixed_frequency m r)
        ∨ (∀ r ∈ Set.Icc (-(1 / 2) : ℝ) (1 / 2),
          swap_pv_at_expiry swap_rate expiry tenor_start tenor_end fixed_frequency m r < 0)) :
    price_european_swaption swap_rate expiry tenor_start tenor_end fixed_frequency m
      option_type = .ok 0 := by
  have hmem1 : (-(1 / 2) : ℝ) ∈ Set.Icc (-(1 / 2) : ℝ) (1 / 2) := by
    constructor <;> norm_num
  have hmem2 : ((1 / 2) : ℝ) ∈ Set.Icc (-(1 / 2) : ℝ) (1 / 2) := by
    constructor <;> norm_num
  have hprod : 0 < swap_pv_at_expiry swap_rate expiry tenor_start tenor_end
        fixed_frequency m (-(1 / 2))
      * swap_pv_at_expiry swap_rate expiry tenor_start tenor_end fixed_frequency m (1 / 2) := by
    rcases hsign with h | h
    · exact mul_pos (h _ hmem1) (h _ hmem2)
    · exact mul_pos_of_neg_of_neg (h _ hmem1) (h _ hmem2)
  simp only [price_european_swaption, brentq]
  rw [if_neg hne, if_pos hprod]

/-- Witness for C4: with the flat model, swap rate 9, expiry 1, tenor 1 to 2,
annual frequency, one date (2) survives the filter, the objective is strictly
positive on the whole bracket, and the payer swaption prices to 0.0. -/
theorem swaption_root_failure_witness :
    filtered_payment_dates 1 2 1 1 ≠ []
    ∧ price_european_swaption 9 1 1 2 1 flatOneModel "payer" = .ok 0 := by
  have hne : filtered_payment_dates 1 2 1 1 ≠ [] := by
    rw [filtered_one_two_one_one]
    simp
  exact ⟨hne, swaption_root_failure_returns_zero 9 1 1 2 1 flatOneModel "payer" hne
    (Or.inl fun r hr => swap_pv_flat_pos r hr)⟩

/-- Counterexample to C2 as stated: at tenor_start = 0, tenor_end = 1,
fixed_frequency = 3/5, expiry = 1 the hypotheses tenor_end <= expiry and
fixed_frequency > 0 hold, yet the stepped enumeration overshoots tenor_end
and leaves the date 6/5 strictly after expiry, so the degenerate early
return does not fire. -/
theorem swaption_degenerate_counterexample :
    ((1 : ℝ) ≤ 1 ∧ (0 : ℝ) < 3 / 5)
    ∧ ¬(filtered_payment_dates 0 1 (3 / 5) 1 = []
        ∧ price_european_swaption 9 1 0 1 (3 / 5) flatOneModel "payer" = .ok 0) := by
  refine ⟨⟨le_rfl, by norm_num⟩, fun h => ?_⟩
  rw [filtered_zero_one_threefifths_one] at h
  exact List.noConfusion h.1

/-- C2 amended: a swaption with tenor_end <= expiry and fixed_frequency > 0
whose enumerated fixed-leg payment dates all lie at or before expiry prices
to exactly 0.0, for payer and receiver alike (the early return fires). -/
theorem swaption_expired_prices_zero
    (swap_rate expiry tenor_start tenor_end fixed_frequency : ℝ)
    (m : CalibratedHW1FModel)
    (hfreq : 0 < fixed_frequency) (hte : tenor_end ≤ expiry)
    (hall : ∀ d ∈ fixed_payment_dates tenor_start tenor_end fixed_frequency, d ≤ expiry) :
    price_european_swaption swap_rate expiry tenor_start tenor_end fixed_frequency m
        "payer" = .ok 0
      ∧ price_european_swaption swap_rate expiry tenor_start tenor_end fixed_frequency m
        "receiver" = .ok 0 := by
  have hnil := filtered_eq_nil_of_all_le tenor_start tenor_end fixed_frequency expiry hall
  constructor <;> simp [price_european_swaption, hnil]

/-- Witness for the amended C2: tenor 0 to 1 with annual frequency and
expiry 1 enumerates the dates 0 and 1, both at or before expiry. -/
theorem swaption_expired_prices_zero_witness :
    ((0 : ℝ) < 1 ∧ (1 : ℝ) ≤ 1)
    ∧ price_european_swaption 2 1 0 1 1 flatOneModel "payer" = .ok 0
    ∧ price_european_swaption 2 1 0 1 1 flatOneModel "receiver" = .ok 0 := by
  have hall : ∀ d ∈ fixed_payment_dates 0 1 1, d ≤ (1 : ℝ) := by
    rw [fixed_dates_zero_one_one]
    intro d hd
    rcases List.mem_cons.mp hd with h | h
    · rw [h]; norm_num
    · rw [List.mem_singleton.mp h]
  exact ⟨⟨by norm_num, le_rfl⟩,
    (swaption_expired_prices_zero 2 1 0 1 1 flatOneModel (by norm_num) le_rfl hall).1,
    (swaption_expired_prices_zero 2 1 0 1 1 flatOneModel (by norm_num) le_rfl hall).2⟩

/-- C9: when every enumerated fixed-leg payment date lies at or before
expiry the swaption prices to 0.0 for every option_type string, valid or
not: the degenerate early return precedes option_type validation, so the
invalid-option_type ValueError is unreachable for expired swaptions. -/
theorem swaption_expired_ignores_option_type
    (swap_rate expiry tenor_start tenor_end fixed_frequency : ℝ)
    (m : CalibratedHW1FModel)
    (hall : ∀ d ∈ fixed_payment_dates tenor_start tenor_end fixed_frequency, d ≤ expiry)
    (option_type : String) :
    price_european_swaption swap_rate expiry tenor_start tenor_end fixed_frequency m
      option_type = .ok 0 := by
  have hnil := filtered_eq_nil_of_all_le tenor_start tenor_end fixed_frequency expiry hall
  simp [price_european_swaption, hnil]

/-- Witness for C9 with the invalid option_type "straddle" and expiry 2,
past both enumerated dates 0 and 1. -/
theorem swaption_expired_ignores_option_type_witness :
    ((0 : ℝ) ≤ 2 ∧ (1 : ℝ) ≤ 2)
    ∧ price_european_swaption 3 2 0 1 1 flatOneModel "straddle" = .ok 0 := by
  have hall : ∀ d ∈ fixed_payment_dates 0 1 1, d ≤ (2 : ℝ) := by
    rw [fixed_dates_zero_one_one]
    intro d hd
    rcases List.mem_cons.mp hd with h | h
    · rw [h]; norm_num
    · rw [List.mem_singleton.mp h]; norm_num
  exact ⟨⟨by norm_num, by norm_num⟩,
    swaption_expired_ignores_option_type 3 2 0 1 1 flatOneModel hall "straddle"⟩

/-- C1, evaluating the divergence: at t = 1, T = 2 on the flat model with
a = 1, sigma = 1, the source's A (whose exponent subtracts a term carrying
B(t,T) to the first power) differs from the specification's formula A_spec
(whose subtracted term carries B(t,T) squared). -/
theorem A_differs_from_spec_formula :
    A 1 2 flatOneModel ≠ A_spec 1 2 flatOneModel := by
  have hspec : A_spec 1 2 flatOneModel
      = Real.exp (-(1 / 4 * (1 - Real.exp (-2)) * (1 - Real.exp (-1)) ^ 2)) := by
    simp only [A_spec, flatOneModel, ifr_const_one, B_one_two_one, constOnePricer]
    norm_num
  rw [A_flat_one_two, hspec]
  intro h
  have heq := Real.exp_eq_exp.mp h
  have hB0 : 0 < 1 - Real.exp (-1) := by linarith [exp_neg_one_lt_one]
  have hBc : 0 < Real.exp (-1) := Real.exp_pos _
  have hc2 : 0 < 1 - Real.exp (-2) := by linarith [exp_neg_two_lt_one]
  nlinarith [mul_pos (mul_pos hc2 hB0) hBc]

end HW1F

end
